import Mathlib

/-!
Verification of the lifecycle / CLI layer of the node-labeler operator
(file cmd/root.go), as a shallow embedding: the functions of the source
become Lean functions, and channel/select behaviour becomes an explicit
trace of channel operations together with an externally chosen race
winner.
-/

namespace NodeLabeler

/-- Go `error` values: `none` models `nil`, `some s` a non-nil error. -/
abbrev Err := String

/-- Operating-system signals that can be subscribed with signal.Notify. -/
inductive OSSignal where
  | SIGTERM
  | SIGINT
  | SIGHUP
  | SIGUSR1
  deriving DecidableEq, Repr

/-- Go time.Duration: a count of nanoseconds held in an int64. -/
abbrev Duration := Int

/-- Go int64 wraparound, applied where the source multiplies durations. -/
def wrapInt64 (n : Int) : Int :=
  (n + 2 ^ 63) % 2 ^ 64 - 2 ^ 63

/-- time.Second expressed in nanoseconds. -/
def timeSecond : Duration := 1000000000

/-- time.Duration(n) * time.Second as computed in run (int64 arithmetic). -/
def durationSeconds (n : Int) : Duration :=
  wrapInt64 (wrapInt64 n * timeSecond)

/-- A raw value a viper key can hold (from a config file or environment). -/
inductive ConfigValue where
  | intVal (n : Int)
  | strVal (s : String)
  deriving DecidableEq, Repr

/-- Decimal digit accumulation, failing on any non-digit character. -/
def decDigits : List Char → Nat → Option Nat
  | [], acc => some acc
  | ch :: rest, acc =>
    if ch.isDigit then decDigits rest (acc * 10 + (ch.toNat - 48)) else none

/-- Decimal integer parsing as the viper/cast coercion performs it: an
optional minus sign followed by at least one digit; anything else is
unparseable. -/
def parseDecInt : List Char → Option Int
  | [] => none
  | ch :: rest =>
    if ch = '-' then
      match rest with
      | [] => none
      | _ => (decDigits rest 0).map fun n => -(n : Int)
    else (decDigits (ch :: rest) 0).map fun n => (n : Int)

/-- viper.GetInt coercion of a raw value: integers pass through, strings
are parsed as integers and coerce to 0 when unparseable. -/
def castToInt : ConfigValue → Int
  | .intVal n => n
  | .strVal s => (parseDecInt s.data).getD 0

/-- Default of the resync-seconds flag, from init():
rootCmd.Flags().Int("resync-seconds", 30, ...). -/
def flagResyncSecondsDefault : Int := 30

/-- The viper global configuration state as run observes it: the setting
of the one key run reads, plus all other ambient global state (other
viper keys, environment, cfgFile), which run must not feed into the
operator. -/
structure ViperState where
  resyncSecondsSetting : Option ConfigValue
  otherGlobalState : Nat
  deriving DecidableEq, Repr

/-- viper.GetInt("resync-seconds") under the BindPFlag registration of
init(): an explicit setting is coerced to int, otherwise the flag
default 30 applies. -/
def viperGetIntResyncSeconds (st : ViperState) : Int :=
  match st.resyncSecondsSetting with
  | some v => castToInt v
  | none => flagResyncSecondsDefault

/-- The three typed Kubernetes clients returned by GetKubernetesClients,
as opaque handles. -/
structure Clients where
  nlCli : Nat
  crdCli : Nat
  k8sCli : Nat
  deriving DecidableEq, Repr

/-- The logger capability constructed in run (applogger.Std), opaque. -/
structure Logger where
  id : Nat := 0
  deriving DecidableEq, Repr

/-- Modelled from the spec: the operator configuration consumed by the
core holds only the resync interval ("no other tunables are required by
the core itself"); operator.NewOperatorConfig lives outside cmd/. -/
structure OperatorConfig where
  resyncPeriod : Duration
  deriving DecidableEq, Repr

/-- operator.NewOperatorConfig: wraps the resync duration. -/
def NewOperatorConfig (d : Duration) : OperatorConfig := ⟨d⟩

/-- Modelled from the spec: the operator value built by operator.New
holds exactly the dependencies injected as constructor arguments
(config, the three clients, the logger); operator.New lives outside
cmd/. -/
structure Operator where
  config : OperatorConfig
  nlCli : Nat
  crdCli : Nat
  k8sCli : Nat
  logger : Logger
  deriving DecidableEq, Repr

/-- operator.New as a pure function of its explicit arguments; failure
is modelled separately by the environment (newOperatorErr). -/
def operatorNew (cfg : OperatorConfig) (nl crd k8s : Nat) (lg : Logger) : Operator :=
  ⟨cfg, nl, crd, k8s, lg⟩

/-- One observable step of run on its channels, plus its return. -/
inductive ChanOp where
  | makeStopChan
  | makeFinishChan (capacity : Nat)
  | makeSignalChan (capacity : Nat)
  | notifySignals (sigs : List OSSignal)
  | startOperatorGoroutine
  | recvFinish (e : Option Err)
  | recvSignal
  | logSignalCaptured
  | closeStopChan
  | sendStopChan
  | ret (e : Option Err)
  deriving DecidableEq, Repr

/-- Capacity of signalC, from make(chan os.Signal, 1). -/
def signalChanCapacity : Nat := 1

/-- Capacity of finishC, from make(chan error): unbuffered. -/
def finishChanCapacity : Nat := 0

/-- The signals subscribed by signal.Notify(signalC, syscall.SIGTERM,
syscall.SIGINT). -/
def notifiedSignals : List OSSignal := [.SIGTERM, .SIGINT]

/-- Which of the two select cases resolves first: the operator finishing
(finishC delivers op.Run's result) or a subscribed signal arriving. -/
inductive RaceWinner where
  | finished
  | signaled
  deriving DecidableEq, Repr

/-- The environment run executes in: viper state, the outcome of client
construction, of operator construction, and the error op.Run would
deliver on finishC if the operator finishes. -/
structure RunEnv where
  viper : ViperState
  clientsResult : Except Err Clients
  newOperatorErr : Option Err
  opRunResult : Option Err
  deriving Repr

/-- Everything observable about one execution of run: the returned
error, the trace of channel operations, and the operator constructed
(none when construction was not reached or failed). -/
structure RunOutcome where
  ret : Option Err
  trace : List ChanOp
  op : Option Operator
  deriving DecidableEq, Repr

/-- Shallow embedding of run (cmd/root.go): build logger, get clients
(propagating failure), build the operator config from
viper.GetInt("resync-seconds") seconds, build the operator (propagating
failure), create stopC / finishC / signalC, register the signals, start
the operator goroutine, then select on finishC versus signalC; a
finishC error is returned, otherwise nil. -/
def run (env : RunEnv) (winner : RaceWinner) : RunOutcome :=
  let logger : Logger := {}
  match env.clientsResult with
  | .error e => ⟨some e, [.ret (some e)], none⟩
  | .ok cls =>
    let oconfig := NewOperatorConfig (durationSeconds (viperGetIntResyncSeconds env.viper))
    match env.newOperatorErr with
    | some e => ⟨some e, [.ret (some e)], none⟩
    | none =>
      let op := operatorNew oconfig cls.nlCli cls.crdCli cls.k8sCli logger
      let setup : List ChanOp :=
        [.makeStopChan, .makeFinishChan finishChanCapacity,
         .makeSignalChan signalChanCapacity, .notifySignals notifiedSignals,
         .startOperatorGoroutine]
      match winner with
      | .finished =>
        match env.opRunResult with
        | some e => ⟨some e, setup ++ [.recvFinish (some e), .ret (some e)], some op⟩
        | none => ⟨none, setup ++ [.recvFinish none, .ret none], some op⟩
      | .signaled =>
        ⟨none, setup ++ [.recvSignal, .logSignalCaptured, .ret none], some op⟩

/-- Outcome of Execute (cmd/root.go): on a non-nil error from the root
command it prints the error and exits with status 1; otherwise it
returns normally. -/
inductive ExecuteOutcome where
  | exited (printed : Err) (code : Nat)
  | returned
  deriving DecidableEq, Repr

/-- Shallow embedding of Execute, applied to the root command's result
(run is the RunE of rootCmd). -/
def Execute (cmdResult : Option Err) : ExecuteOutcome :=
  match cmdResult with
  | some e => .exited e 1
  | none => .returned

/-- Everything observable about one execution of initConfig. -/
structure InitConfigOutcome where
  usedConfigFile : Option String
  searchedHomeDir : Bool
  automaticEnv : Bool
  printedUsing : Bool
  deriving DecidableEq, Repr

/-- Shallow embedding of initConfig (cmd/root.go): with a --config flag
the file is used directly, otherwise the home directory is searched;
environment variables are read; the error of viper.ReadInConfig is
ignored, and a message is printed only when reading succeeded.
initConfig has no failure outcome of its own. -/
def initConfig (cfgFile : Option String) (readInConfigResult : Except Err String) : InitConfigOutcome :=
  { usedConfigFile := cfgFile
  , searchedHomeDir := cfgFile.isNone
  , automaticEnv := true
  , printedUsing := match readInConfigResult with
      | .ok _ => true
      | .error _ => false }

/-- The full command execution as main triggers it: cobra runs
initConfig (via OnInitialize) and then run; initConfig contributes no
error, so the command's result is run's return value. -/
def rootCmdExecute (cfgFile : Option String) (readInConfigResult : Except Err String)
    (env : RunEnv) (winner : RaceWinner) : Option Err :=
  let _ := initConfig cfgFile readInConfigResult
  (run env winner).ret

/-- Go channel semantics: a send on a channel completes only if the
buffer has spare capacity or some receive on the channel occurs;
otherwise the sender blocks forever. -/
def sendCompletes (capacity receives : Nat) : Bool :=
  decide (0 < capacity) || decide (0 < receives)

/-- Number of receives from finishC occurring in a trace. -/
def finishRecvCount (t : List ChanOp) : Nat :=
  t.countP fun o => match o with
    | .recvFinish _ => true
    | _ => false

/-- Whether a trace step is a select observation (a receive from either
finishC or signalC). -/
def isSelectRecv : ChanOp → Bool
  | .recvFinish _ => true
  | .recvSignal => true
  | _ => false

/-- A channel buffer retains all pending items when they fit within its
capacity. -/
def bufferRetains (capacity pending : Nat) : Bool :=
  decide (pending ≤ capacity)

/-- A concrete successful environment with a pending non-fatal operator
error, used to evaluate the model at specific inputs. -/
def envOkStop : RunEnv :=
  { viper := { resyncSecondsSetting := none, otherGlobalState := 0 }
  , clientsResult := .ok ⟨1, 2, 3⟩
  , newOperatorErr := none
  , opRunResult := some "transient reconcile failure" }

/-- C1: in every execution of run where the external stop signal wins
the race against the operator result, run returns nil, whatever error
op.Run would have delivered. -/
theorem run_signaled_returns_nil (env : RunEnv) (c : Clients)
    (hc : env.clientsResult = .ok c) (hn : env.newOperatorErr = none) :
    (run env .signaled).ret = none := by
  simp [run, hc, hn]

/-- Witness for C1 at a concrete environment with a pending non-fatal
operator error. -/
theorem run_signaled_returns_nil_witness :
    envOkStop.clientsResult = .ok ⟨1, 2, 3⟩ ∧ envOkStop.newOperatorErr = none ∧
    envOkStop.opRunResult = some "transient reconcile failure" ∧
    (run envOkStop .signaled).ret = none :=
  ⟨rfl, rfl, rfl, run_signaled_returns_nil envOkStop ⟨1, 2, 3⟩ rfl rfl⟩

/-- C2 counterexample: at a concrete successful environment where the
signal wins, run neither closes nor writes the stop channel it passed
to op.Run, so the stop is not propagated to the running operator and no
cooperative drain is triggered by run. -/
theorem run_signal_stop_not_propagated :
    ¬ (ChanOp.closeStopChan ∈ (run envOkStop .signaled).trace ∨
       ChanOp.sendStopChan ∈ (run envOkStop .signaled).trace) := by
  decide

/-- C2 (amended): when the external stop signal fires, run logs the
capture and returns nil immediately; the stop channel passed to op.Run
is never closed or written, so run does not propagate the stop to the
operator and does not itself drain in-flight reconciliations before
returning. -/
theorem run_signal_exits_without_stopping_operator (env : RunEnv) (c : Clients)
    (hc : env.clientsResult = .ok c) (hn : env.newOperatorErr = none) :
    (run env .signaled).ret = none ∧
    ChanOp.logSignalCaptured ∈ (run env .signaled).trace ∧
    ChanOp.closeStopChan ∉ (run env .signaled).trace ∧
    ChanOp.sendStopChan ∉ (run env .signaled).trace := by
  simp [run, hc, hn]

/-- Witness for the amended C2 at a concrete environment. -/
theorem run_signal_exits_without_stopping_operator_witness :
    envOkStop.clientsResult = .ok ⟨1, 2, 3⟩ ∧
    ((run envOkStop .signaled).ret = none ∧
     ChanOp.logSignalCaptured ∈ (run envOkStop .signaled).trace ∧
     ChanOp.closeStopChan ∉ (run envOkStop .signaled).trace ∧
     ChanOp.sendStopChan ∉ (run envOkStop .signaled).trace) :=
  ⟨rfl, run_signal_exits_without_stopping_operator envOkStop ⟨1, 2, 3⟩ rfl rfl⟩

/-- C3: a non-nil error from client construction, operator construction
or op.Run (when no signal has won) is returned unchanged by run, and
Execute prints a non-nil error and exits with the non-zero status 1. -/
theorem run_errors_propagate_and_execute_exits (env : RunEnv) (e : Err) :
    (env.clientsResult = .error e →
      (run env .finished).ret = some e ∧ (run env .signaled).ret = some e) ∧
    (∀ c, env.clientsResult = .ok c → env.newOperatorErr = some e →
      (run env .finished).ret = some e ∧ (run env .signaled).ret = some e) ∧
    (∀ c, env.clientsResult = .ok c → env.newOperatorErr = none →
      env.opRunResult = some e → (run env .finished).ret = some e) ∧
    (Execute (some e) = .exited e 1 ∧ (1 : Nat) ≠ 0) := by
  refine ⟨fun hc => ?_, fun c hc hn => ?_, fun c hc hn hr => ?_, rfl, one_ne_zero⟩
  · exact ⟨by simp [run, hc], by simp [run, hc]⟩
  · exact ⟨by simp [run, hc, hn], by simp [run, hc, hn]⟩
  · simp [run, hc, hn, hr]

/-- Witness for C3: a concrete environment whose client construction
fails delivers that error through run and a unit exit code from
Execute. -/
theorem run_errors_propagate_and_execute_exits_witness :
    ({ viper := ⟨none, 0⟩, clientsResult := .error "no kubeconfig"
     , newOperatorErr := none, opRunResult := none } : RunEnv).clientsResult
        = .error "no kubeconfig" ∧
    (run { viper := ⟨none, 0⟩, clientsResult := .error "no kubeconfig"
         , newOperatorErr := none, opRunResult := none } .finished).ret
        = some "no kubeconfig" ∧
    Execute (some "no kubeconfig") = .exited "no kubeconfig" 1 :=
  ⟨rfl,
   ((run_errors_propagate_and_execute_exits
      { viper := ⟨none, 0⟩, clientsResult := .error "no kubeconfig"
      , newOperatorErr := none, opRunResult := none } "no kubeconfig").1 rfl).1,
   (run_errors_propagate_and_execute_exits
      { viper := ⟨none, 0⟩, clientsResult := .error "no kubeconfig"
      , newOperatorErr := none, opRunResult := none } "no kubeconfig").2.2.2.1⟩

/-- C4: once construction succeeds, the race winner alone determines
run's return value (operator completion returns its error, a signal
returns nil), and every execution observes exactly one select receive:
the losing event is never observed by the caller. -/
theorem run_first_winner_determines_result (env : RunEnv) (c : Clients)
    (hc : env.clientsResult = .ok c) (hn : env.newOperatorErr = none) :
    (run env .finished).ret = env.opRunResult ∧
    (run env .signaled).ret = none ∧
    (∀ w, ((run env w).trace.countP isSelectRecv) = 1) := by
  refine ⟨?_, by simp [run, hc, hn], ?_⟩
  · cases hr : env.opRunResult <;> simp [run, hc, hn, hr]
  · intro w
    cases w <;> cases hr : env.opRunResult <;>
      simp [run, hc, hn, hr, isSelectRecv, List.countP, List.countP.go]

/-- Witness for C4 at a concrete environment. -/
theorem run_first_winner_determines_result_witness :
    envOkStop.clientsResult = .ok ⟨1, 2, 3⟩ ∧
    ((run envOkStop .finished).ret = envOkStop.opRunResult ∧
     (run envOkStop .signaled).ret = none ∧
     ((run envOkStop .finished).trace.countP isSelectRecv) = 1) :=
  ⟨rfl,
   (run_first_winner_determines_result envOkStop ⟨1, 2, 3⟩ rfl rfl).1,
   (run_first_winner_determines_result envOkStop ⟨1, 2, 3⟩ rfl rfl).2.1,
   (run_first_winner_determines_result envOkStop ⟨1, 2, 3⟩ rfl rfl).2.2 .finished⟩

/-- C5 counterexample: at a concrete environment where the stop signal
wins, the completion channel is unbuffered and run performs no receive
on it, so the operator goroutine's send never completes — it does block
that goroutine forever, contrary to the claim. -/
theorem finish_send_blocks_forever :
    sendCompletes finishChanCapacity
      (finishRecvCount (run envOkStop .signaled).trace) = false := by
  decide

/-- C5 (amended): when the external-stop path wins, run returns nil and
the losing result is discarded, but because the completion channel is
unbuffered and run never receives from it after the signal, the
operator goroutine's eventual send blocks forever: the goroutine is
leaked and reclaimed only by process exit. -/
theorem run_signal_discards_and_leaks (env : RunEnv) (c : Clients)
    (hc : env.clientsResult = .ok c) (hn : env.newOperatorErr = none) :
    (run env .signaled).ret = none ∧
    finishChanCapacity = 0 ∧
    finishRecvCount (run env .signaled).trace = 0 ∧
    sendCompletes finishChanCapacity
      (finishRecvCount (run env .signaled).trace) = false := by
  refine ⟨by simp [run, hc, hn], rfl, ?_, ?_⟩ <;>
    simp [run, hc, hn, finishRecvCount, sendCompletes, finishChanCapacity,
      List.countP, List.countP.go]

/-- Witness for the amended C5 at a concrete environment. -/
theorem run_signal_discards_and_leaks_witness :
    envOkStop.clientsResult = .ok ⟨1, 2, 3⟩ ∧
    ((run envOkStop .signaled).ret = none ∧
     finishChanCapacity = 0 ∧
     finishRecvCount (run envOkStop .signaled).trace = 0 ∧
     sendCompletes finishChanCapacity
       (finishRecvCount (run envOkStop .signaled).trace) = false) :=
  ⟨rfl, run_signal_discards_and_leaks envOkStop ⟨1, 2, 3⟩ rfl rfl⟩

/-- C6: the resync interval handed to the operator configuration is the
configured resync-seconds value interpreted as seconds, defaulting to
30 seconds when the setting is absent, and the configuration carries no
other tunable (it is determined by its resync period alone). -/
theorem resync_interval_config (env : RunEnv) (c : Clients) (w : RaceWinner)
    (hc : env.clientsResult = .ok c) (hn : env.newOperatorErr = none) :
    (∃ op, (run env w).op = some op ∧
      op.config = NewOperatorConfig (durationSeconds (viperGetIntResyncSeconds env.viper)) ∧
      (env.viper.resyncSecondsSetting = none →
        op.config.resyncPeriod = 30 * timeSecond)) ∧
    (∀ c1 c2 : OperatorConfig, c1.resyncPeriod = c2.resyncPeriod → c1 = c2) := by
  constructor
  · refine ⟨operatorNew
      (NewOperatorConfig (durationSeconds (viperGetIntResyncSeconds env.viper)))
      c.nlCli c.crdCli c.k8sCli {}, ?_, rfl, ?_⟩
    · cases w <;> cases hr : env.opRunResult <;> simp [run, hc, hn, hr]
    · intro hnone
      simp [operatorNew, NewOperatorConfig, viperGetIntResyncSeconds, hnone,
        flagResyncSecondsDefault]
      decide
  · intro c1 c2 h
    cases c1
    cases c2
    simpa using h

/-- Witness for C6 at a concrete environment with no explicit setting. -/
theorem resync_interval_config_witness :
    envOkStop.clientsResult = .ok ⟨1, 2, 3⟩ ∧
    ((∃ op, (run envOkStop .finished).op = some op ∧
      op.config = NewOperatorConfig (durationSeconds (viperGetIntResyncSeconds envOkStop.viper)) ∧
      (envOkStop.viper.resyncSecondsSetting = none →
        op.config.resyncPeriod = 30 * timeSecond)) ∧
    (∀ c1 c2 : OperatorConfig, c1.resyncPeriod = c2.resyncPeriod → c1 = c2)) :=
  ⟨rfl, resync_interval_config envOkStop ⟨1, 2, 3⟩ .finished rfl rfl⟩

/-- C7: the operator is built purely from its explicit constructor
arguments (config, clients, logger); ambient global state — other viper
keys or any other environment difference, including the race outcome —
cannot change the constructed operator. -/
theorem operator_dependency_injection (env₁ env₂ : RunEnv) (w₁ w₂ : RaceWinner)
    (c : Clients)
    (hc₁ : env₁.clientsResult = .ok c) (hc₂ : env₂.clientsResult = .ok c)
    (hn₁ : env₁.newOperatorErr = none) (hn₂ : env₂.newOperatorErr = none)
    (hv : env₁.viper.resyncSecondsSetting = env₂.viper.resyncSecondsSetting) :
    (run env₁ w₁).op =
      some (operatorNew
        (NewOperatorConfig (durationSeconds (viperGetIntResyncSeconds env₁.viper)))
        c.nlCli c.crdCli c.k8sCli {}) ∧
    (run env₁ w₁).op = (run env₂ w₂).op := by
  have hop : ∀ (env : RunEnv) (w : RaceWinner),
      env.clientsResult = .ok c → env.newOperatorErr = none →
      (run env w).op = some (operatorNew
        (NewOperatorConfig (durationSeconds (viperGetIntResyncSeconds env.viper)))
        c.nlCli c.crdCli c.k8sCli {}) := by
    intro env w hc hn
    cases w <;> cases hr : env.opRunResult <;> simp [run, hc, hn, hr]
  have hvi : viperGetIntResyncSeconds env₁.viper = viperGetIntResyncSeconds env₂.viper := by
    simp [viperGetIntResyncSeconds, hv]
  refine ⟨hop env₁ w₁ hc₁ hn₁, ?_⟩
  rw [hop env₁ w₁ hc₁ hn₁, hop env₂ w₂ hc₂ hn₂, hvi]

/-- Witness for C7: two environments differing in ambient global state,
in the pending operator result and in the race outcome construct the
same operator. -/
theorem operator_dependency_injection_witness :
    ({ viper := ⟨none, 17⟩, clientsResult := .ok ⟨1, 2, 3⟩
     , newOperatorErr := none, opRunResult := some "other" } : RunEnv).clientsResult
        = .ok ⟨1, 2, 3⟩ ∧
    (run envOkStop .signaled).op =
      (run { viper := ⟨none, 17⟩, clientsResult := .ok ⟨1, 2, 3⟩
           , newOperatorErr := none, opRunResult := some "other" } .finished).op :=
  ⟨rfl,
   (operator_dependency_injection envOkStop
      { viper := ⟨none, 17⟩, clientsResult := .ok ⟨1, 2, 3⟩
      , newOperatorErr := none, opRunResult := some "other" }
      .signaled .finished ⟨1, 2, 3⟩ rfl rfl rfl rfl rfl).2⟩

/-- C8: a failing config-file read never fails startup: initConfig has
no failure outcome, prints its message only on success, and the command
result is exactly run's return value whatever the read produced. -/
theorem initConfig_ignores_read_failure (f : Option String) (e : Err) (s : String)
    (env : RunEnv) (w : RaceWinner) :
    rootCmdExecute f (.error e) env w = (run env w).ret ∧
    (initConfig f (.error e)).printedUsing = false ∧
    (initConfig f (.ok s)).printedUsing = true ∧
    rootCmdExecute f (.error e) env w = rootCmdExecute f (.ok s) env w := by
  simp [rootCmdExecute, initConfig]

/-- C9: run passes the resync-seconds value through unvalidated: the
operator receives exactly the coerced configured value as seconds, and
the coercion sends zero to zero, negatives to negatives, and
unparseable strings to zero. -/
theorem resync_seconds_unvalidated (env : RunEnv) (c : Clients) (w : RaceWinner)
    (hc : env.clientsResult = .ok c) (hn : env.newOperatorErr = none) :
    (∃ op, (run env w).op = some op ∧
      op.config.resyncPeriod = durationSeconds (viperGetIntResyncSeconds env.viper)) ∧
    castToInt (.intVal 0) = 0 ∧
    castToInt (.intVal (-7)) = -7 ∧
    castToInt (.strVal "thirty") = 0 ∧
    durationSeconds 0 = 0 ∧
    durationSeconds (-7) = -7 * timeSecond := by
  refine ⟨⟨operatorNew
      (NewOperatorConfig (durationSeconds (viperGetIntResyncSeconds env.viper)))
      c.nlCli c.crdCli c.k8sCli {}, ?_, rfl⟩, rfl, rfl, by decide, by decide, by decide⟩
  cases w <;> cases hr : env.opRunResult <;> simp [run, hc, hn, hr]

/-- Witness for C9 at a concrete environment whose resync-seconds is a
negative integer. -/
theorem resync_seconds_unvalidated_witness :
    ({ viper := ⟨some (.intVal (-7)), 0⟩, clientsResult := .ok ⟨1, 2, 3⟩
     , newOperatorErr := none, opRunResult := none } : RunEnv).clientsResult
        = .ok ⟨1, 2, 3⟩ ∧
    ((∃ op, (run { viper := ⟨some (.intVal (-7)), 0⟩, clientsResult := .ok ⟨1, 2, 3⟩
                 , newOperatorErr := none, opRunResult := none } .finished).op = some op ∧
        op.config.resyncPeriod =
          durationSeconds (viperGetIntResyncSeconds ⟨some (.intVal (-7)), 0⟩)) ∧
      castToInt (.intVal 0) = 0 ∧
      castToInt (.intVal (-7)) = -7 ∧
      castToInt (.strVal "thirty") = 0 ∧
      durationSeconds 0 = 0 ∧
      durationSeconds (-7) = -7 * timeSecond) :=
  ⟨rfl, resync_seconds_unvalidated
    { viper := ⟨some (.intVal (-7)), 0⟩, clientsResult := .ok ⟨1, 2, 3⟩
    , newOperatorErr := none, opRunResult := none } ⟨1, 2, 3⟩ .finished rfl rfl⟩

/-- C10: run subscribes exactly SIGTERM and SIGINT on a signal channel
of capacity 1, and a buffer of capacity 1 retains a single pending
signal sent while no receiver is waiting. -/
theorem signal_subscription (env : RunEnv) (c : Clients) (w : RaceWinner)
    (hc : env.clientsResult = .ok c) (hn : env.newOperatorErr = none) :
    notifiedSignals = [.SIGTERM, .SIGINT] ∧
    signalChanCapacity = 1 ∧
    ChanOp.makeSignalChan 1 ∈ (run env w).trace ∧
    ChanOp.notifySignals [.SIGTERM, .SIGINT] ∈ (run env w).trace ∧
    bufferRetains signalChanCapacity 1 = true := by
  refine ⟨rfl, rfl, ?_, ?_, rfl⟩ <;>
    cases w <;> cases hr : env.opRunResult <;>
      simp [run, hc, hn, hr, signalChanCapacity, notifiedSignals]

/-- Witness for C10 at a concrete environment. -/
theorem signal_subscription_witness :
    envOkStop.clientsResult = .ok ⟨1, 2, 3⟩ ∧
    (notifiedSignals = [.SIGTERM, .SIGINT] ∧
     signalChanCapacity = 1 ∧
     ChanOp.makeSignalChan 1 ∈ (run envOkStop .signaled).trace ∧
     ChanOp.notifySignals [.SIGTERM, .SIGINT] ∈ (run envOkStop .signaled).trace ∧
     bufferRetains signalChanCapacity 1 = true) :=
  ⟨rfl, signal_subscription envOkStop ⟨1, 2, 3⟩ .signaled rfl rfl⟩

end NodeLabeler
